import Mathlib

/-!
Verification development for the crkbd-shockburst firmware.

Shallow embedding of the radio protocol core:
- the channel hopping selectors (src/firmware/src/radio_protocol.rs and
  src/dongle/src/bin/dongle_tasks.rs),
- the packet buffer and radio driver (src/dongle/src/bsp/radio.rs),
- the dongle slot loop body and the keyboard sync acquisition step
  (src/firmware/src/radio_protocol.rs).

Machine integers are modelled as Nat with explicit reductions modulo the
relevant power of two where the source performs fixed-width arithmetic or
casts; panicking operations return Option.
-/

set_option maxRecDepth 100000

namespace Crkbd

/-- Embedding of struct ChannelHopping from src/firmware/src/radio_protocol.rs
(the canonical L = 167 selector). The Rust field is a u8; reachable values
stay below the sequence length. -/
structure ChannelHopping where
  state : Nat
  deriving DecidableEq

namespace ChannelHopping

/-- The compile-time channel hopping sequence of the canonical protocol,
copied verbatim from src/firmware/src/radio_protocol.rs lines 52-61 (the
entry 73 at the very end is commented out in the source). -/
def CHANNEL_HOPPING_SEQUENCE : List Nat := [
    5, 38, 24, 36, 15, 26, 51, 7, 63, 82, 11, 40, 65, 21, 80, 81, 32, 74, 50, 48, 70, 42, 76,
    8, 20, 75, 53, 77, 6, 79, 46, 71, 62, 14, 29, 19, 2, 17, 59, 35, 83, 56, 34, 61, 22, 66,
    54, 67, 44, 78, 52, 68, 4, 45, 27, 31, 18, 0, 60, 43, 12, 55, 13, 9, 58, 16, 47, 10, 25,
    72, 3, 33, 69, 1, 39, 57, 28, 73, 37, 64, 49, 23, 41, 30,
    11, 23, 66, 0, 21, 74, 52, 28, 45, 14, 65, 18, 30, 43, 57, 71, 31, 63, 2, 50, 1, 42, 10,
    72, 9, 76, 33, 64, 54, 49, 62, 15, 44, 25, 51, 40, 58, 68, 37, 67, 22, 47, 19, 55, 13, 36,
    17, 56, 27, 46, 70, 20, 78, 24, 79, 59, 39, 81, 8, 34, 82, 41, 69, 38, 26, 3, 75, 35, 60,
    77, 7, 48, 4, 32, 5, 80, 53, 6, 61, 29, 12, 83, 16]

/-- ChannelHopping::new. -/
def new : ChannelHopping := ⟨0⟩

/-- ChannelHopping::current_channel; the Rust array indexing panics out of
bounds, modelled by Option. -/
def current_channel (h : ChannelHopping) : Option Nat :=
  CHANNEL_HOPPING_SEQUENCE[h.state]?

/-- ChannelHopping::next_channel: state = (state + 1) % len, computed in u8
arithmetic (the inner reduction modulo 256 models the u8 addition). -/
def next_channel (h : ChannelHopping) : ChannelHopping :=
  ⟨((h.state + 1) % 256) % CHANNEL_HOPPING_SEQUENCE.length⟩

/-- ChannelHopping::is_initial_state. -/
def is_initial_state (h : ChannelHopping) : Bool :=
  h.state == 0

/-- ChannelHopping::reset. -/
def reset (_h : ChannelHopping) : ChannelHopping := ⟨0⟩

end ChannelHopping

namespace DongleTasks

/-- Embedding of the older struct ChannelHopping from
src/dongle/src/bin/dongle_tasks.rs (the L = 100 selector). -/
structure ChannelHopping where
  state : Nat
  deriving DecidableEq

namespace ChannelHopping

/-- The L = 100 hopping sequence, copied verbatim from
src/dongle/src/bin/dongle_tasks.rs lines 29-35. -/
def CHANNEL_HOPPING_SEQUENCE : List Nat := [
    84, 47, 37, 45, 74, 44, 13, 75, 67, 28, 65, 51, 68, 7, 89, 9, 16, 63, 8, 87, 23, 99, 57,
    69, 12, 26, 83, 30, 78, 33, 97, 77, 41, 34, 42, 86, 70, 95, 6, 73, 88, 2, 72, 59, 4, 25,
    53, 96, 20, 5, 39, 92, 82, 71, 29, 43, 1, 94, 32, 17, 60, 90, 56, 27, 11, 55, 62, 79, 64,
    98, 14, 52, 100, 93, 76, 46, 85, 58, 18, 3, 15, 40, 48, 10, 19, 61, 54, 80, 36, 21, 81, 38,
    22, 49, 91, 31, 66, 35, 24, 50]

/-- ChannelHopping::new (dongle_tasks version). -/
def new : ChannelHopping := ⟨0⟩

/-- ChannelHopping::current_channel (dongle_tasks version). -/
def current_channel (h : ChannelHopping) : Option Nat :=
  CHANNEL_HOPPING_SEQUENCE[h.state]?

/-- ChannelHopping::next_channel (dongle_tasks version), u8 arithmetic. -/
def next_channel (h : ChannelHopping) : ChannelHopping :=
  ⟨((h.state + 1) % 256) % CHANNEL_HOPPING_SEQUENCE.length⟩

/-- ChannelHopping::is_initial_state (dongle_tasks version). -/
def is_initial_state (h : ChannelHopping) : Bool :=
  h.state == 0

end ChannelHopping

end DongleTasks

/-- SLOT_SIZE from src/firmware/src/radio_protocol.rs: 2000 microsecond
ticks of the 1 MHz monotonic. -/
def SLOT_SIZE : Nat := 2000

/-- The mask 0xffff_ffff_0000_0000 used by the timestamp widening hack,
written out as 2 ^ 64 - 2 ^ 32 = 18446744069414584320. -/
def HIGH_MASK : Nat := 18446744069414584320

/-- Embedding of the timestamp widening performed by keyboard_radio_runner
(src/firmware/src/radio_protocol.rs lines 220-222):
Mono::now().ticks() & 0xffff_ffff_0000_0000 | timestamp.0.ticks() as u64. -/
def widen_timestamp (now64 ts32 : Nat) : Nat :=
  now64 &&& HIGH_MASK ||| ts32

/-- Embedding of struct Packet from src/dongle/src/bsp/radio.rs: a buffer of
SIZE bytes, byte 0 being the PHR. Bytes are Nat values below 256. -/
structure Packet where
  buffer : List Nat
  deriving DecidableEq

namespace Packet

/-- Packet::PHY_HDR. -/
def PHY_HDR : Nat := 0

/-- Packet::CAPACITY. -/
def CAPACITY : Nat := 125

/-- Packet::CRC. -/
def CRC : Nat := 2

/-- Packet::MAX_PSDU_LEN = CAPACITY + CRC. -/
def MAX_PSDU_LEN : Nat := CAPACITY + CRC

/-- Packet::SIZE = 1 + MAX_PSDU_LEN. -/
def SIZE : Nat := 1 + MAX_PSDU_LEN

/-- Packet::set_len: panics (None) when len > CAPACITY, otherwise writes
buffer[PHY_HDR] = len + CRC. -/
def set_len (p : Packet) (len : Nat) : Option Packet :=
  if len ≤ CAPACITY then some ⟨p.buffer.set PHY_HDR (len + CRC)⟩ else none

/-- Packet::new: a zeroed buffer with set_len(0); the inner set_len cannot
panic since 0 ≤ CAPACITY. -/
def new : Packet :=
  (set_len ⟨List.replicate SIZE 0⟩ 0).getD ⟨List.replicate SIZE 0⟩

/-- Packet::len: buffer[PHY_HDR] - CRC. Reachable packets always have
buffer[PHY_HDR] ≥ CRC, so the truncated Nat subtraction coincides with the
u8 subtraction in the source. -/
def len (p : Packet) : Nat :=
  p.buffer.getD PHY_HDR 0 - CRC

/-- Packet::copy_from_slice: asserts src.len() ≤ CAPACITY (None on panic),
copies src into buffer[1 .. 1 + src.len()] and calls set_len. -/
def copy_from_slice (p : Packet) (src : List Nat) : Option Packet :=
  if src.length ≤ CAPACITY then
    set_len ⟨p.buffer.take 1 ++ src ++ p.buffer.drop (1 + src.length)⟩ src.length
  else none

/-- The Deref impl for Packet: the view of the first len() data bytes. -/
def payload (p : Packet) : List Nat :=
  (p.buffer.drop 1).take p.len

/-- Model of the DMA buffer update during reception: the peripheral writes
the received PHR and PSDU bytes (at most SIZE, bounded by MAXLEN) at the
start of the buffer and leaves the rest untouched. -/
def dma_write (p : Packet) (data : List Nat) : Packet :=
  ⟨data.take SIZE ++ p.buffer.drop (data.take SIZE).length⟩

end Packet

/-- The visible driver states of src/dongle/src/bsp/radio.rs (enum State):
the subset of the hardware state register the driver returns. -/
inductive RadioState where
  | Disabled
  | RxIdle
  | TxIdle
  deriving DecidableEq

/-- Model of the driver-visible part of struct Radio from
src/dongle/src/bsp/radio.rs: the needs_enable flag, the settled hardware
state and the programmed frequency register. -/
structure Radio where
  needs_enable : Bool
  state : RadioState
  frequency : Nat
  deriving DecidableEq

/-- Everything reported by the hardware when a reception completes: the
bytes DMA wrote into the buffer, the ADDRESS-event capture (32-bit), the
RSSISAMPLE register (7-bit field), the CRCSTATUS flag and the RXCRC
register. -/
structure RxCompletion where
  data : List Nat
  timestamp : Nat
  rssiSample : Nat
  crcOk : Bool
  rxcrc : Nat
  deriving DecidableEq

namespace Radio

/-- Radio::set_freqeuency (sic): panics (None) when frequency > 100,
otherwise writes FREQUENCY and sets needs_enable. -/
def set_freqeuency (r : Radio) (frequency : Nat) : Option Radio :=
  if frequency > 100 then none
  else some { r with needs_enable := true, frequency := frequency }

/-- Radio::put_in_rx_mode, following the (disable, enable) table of the
source; the transient ramp states are waited out, so the model records only
the settled result. -/
def put_in_rx_mode (r : Radio) : Radio :=
  let dis_en : Bool × Bool :=
    match r.state with
    | RadioState.Disabled => (false, true)
    | RadioState.RxIdle => (false, r.needs_enable)
    | RadioState.TxIdle => (true, true)
  let r1 := if dis_en.1 then { r with state := RadioState.Disabled } else r
  if dis_en.2 then { r1 with needs_enable := false, state := RadioState.RxIdle } else r1

/-- Radio::put_in_tx_mode: ramps up unless already TxIdle with no pending
re-enable. -/
def put_in_tx_mode (r : Radio) : Radio :=
  if r.state ≠ RadioState.TxIdle ∨ r.needs_enable = true then
    { r with needs_enable := false, state := RadioState.TxIdle }
  else r

/-- Radio::recv: enters RX, lets DMA fill the buffer, then on the END wake
reads the capture register, RSSISAMPLE (7-bit field, identity under the i8
cast), RXCRC (u16 cast) and CRCSTATUS; Ok((ts, -rssi)) when the CRC
passed, Err(rxcrc) otherwise. The radio settles back in RxIdle (recv
programs no END shortcut). -/
def recv (r : Radio) (packet : Packet) (c : RxCompletion) :
    Radio × Packet × Except Nat (Nat × Int) :=
  let r1 := r.put_in_rx_mode
  let packet1 := packet.dma_write c.data
  let ts := c.timestamp % 2 ^ 32
  let rssi : Int := (c.rssiSample % 128 : Nat)
  let crc := c.rxcrc % 2 ^ 16
  if c.crcOk then (r1, packet1, Except.ok (ts, -rssi))
  else (r1, packet1, Except.error crc)

/-- Radio::send: CCA-guarded transmit. CCA runs from RX mode; the
CCAIDLE->TXEN, TXREADY->START and END->DISABLE shortcuts then carry the
transmission in hardware, so on the PHYEND wake the radio has ramped down
to Disabled. The packet buffer is only read by DMA (ts is the ADDRESS
capture, 32-bit). -/
def send (r : Radio) (packet : Packet) (ts : Nat) : Radio × Packet × Nat :=
  let r1 := r.put_in_rx_mode
  let r2 := { r1 with state := RadioState.Disabled }
  (r2, packet, ts % 2 ^ 32)

/-- Radio::send_no_cca: unconditional transmit from TX mode with the
END->DISABLE shortcut; the packet buffer is only read by DMA. -/
def send_no_cca (r : Radio) (packet : Packet) (ts : Nat) : Radio × Packet × Nat :=
  let r1 := r.put_in_tx_mode
  let r2 := { r1 with state := RadioState.Disabled }
  (r2, packet, ts % 2 ^ 32)

end Radio

/-- The three ways a non-beacon slot of the dongle frame loop can end
(src/firmware/src/radio_protocol.rs lines 134-159): the timeout_at wrapper
fires, or recv completes with a CRC error, or recv completes successfully. -/
inductive SlotOutcome where
  | timeout
  | crcError (crc : Nat) (data : List Nat)
  | received (ts : Nat) (rssi : Int) (data : List Nat)

/-- The mutable state of one dongle frame iteration in dongle_radio_runner:
the two telemetry counters, the selector, the slot deadline and the packet
buffer. -/
structure DongleFrameState where
  correct_rxes : Nat
  missed_rxes : Nat
  channel_hopping : ChannelHopping
  slot_start_time : Nat
  packet : Packet

/-- Embedding of the body of the while !is_initial_state() loop of
dongle_radio_runner (src/firmware/src/radio_protocol.rs lines 130-163).
On success the counter is bumped and the ack [10..=19] is sent (the
copy_from_slice cannot panic: 10 ≤ CAPACITY); on CRC error the match arm
if let Ok(..) silently falls through; on timeout missed_rxes is bumped.
Either way the selector advances and the deadline moves one SLOT_SIZE.
The set_freqeuency call only touches radio registers and is modelled in
Radio.set_freqeuency. -/
def dongle_slot_body (s : DongleFrameState) (o : SlotOutcome) : DongleFrameState :=
  let s1 :=
    match o with
    | SlotOutcome.received _ _ data =>
      let p0 := s.packet.dma_write data
      let p1 := (p0.copy_from_slice [10, 11, 12, 13, 14, 15, 16, 17, 18, 19]).getD p0
      { s with correct_rxes := s.correct_rxes + 1, packet := p1 }
    | SlotOutcome.crcError _ data =>
      { s with packet := s.packet.dma_write data }
    | SlotOutcome.timeout =>
      { s with missed_rxes := s.missed_rxes + 1 }
  { s1 with channel_hopping := s1.channel_hopping.next_channel,
            slot_start_time := s1.slot_start_time + SLOT_SIZE }

/-- Embedding of enum KeyboardRadioState from
src/firmware/src/radio_protocol.rs. -/
inductive KeyboardRadioState where
  | LookingForSync
  | Synchronized (sync_time : Nat) (slot_start_time : Nat)
  deriving DecidableEq

/-- Embedding of the LookingForSync arm of keyboard_radio_runner
(src/firmware/src/radio_protocol.rs lines 198-241). The selector is reset,
then on Err the arm restarts (continue); on Ok((ts32, rssi)), when the
selector is initial and the payload view equals the sync sentinel, the
capture is widened against now64 = Mono::now() and the half transitions to
Synchronized with its slots pre-projected. The packet argument is the
buffer as left by recv. -/
def keyboard_looking_for_sync_step (is_right_half : Bool) (hop : ChannelHopping)
    (now64 : Nat) (res : Except Nat (Nat × Int)) (packet : Packet) :
    KeyboardRadioState × ChannelHopping :=
  let hop1 := hop.reset
  match res with
  | Except.error _ => (KeyboardRadioState.LookingForSync, hop1)
  | Except.ok (ts32, _rssi) =>
    if hop1.is_initial_state && packet.payload == [0, 1, 2, 3, 4, 5, 6, 7, 8, 9] then
      let now := widen_timestamp now64 ts32
      if is_right_half then
        (KeyboardRadioState.Synchronized now (now + SLOT_SIZE), hop1.next_channel)
      else
        (KeyboardRadioState.Synchronized now (now + 2 * SLOT_SIZE),
          hop1.next_channel.next_channel)
    else (KeyboardRadioState.LookingForSync, hop1)

/-! Helper lemmas. -/

/-- Masking a u64 with 0xffff_ffff_0000_0000 clears the low half and keeps
the high half. -/
theorem and_high_mask (a : Nat) (ha : a < 2 ^ 64) :
    a &&& HIGH_MASK = 2 ^ 32 * (a / 2 ^ 32) := by
  have hmask : HIGH_MASK = (2 ^ 32 - 1) <<< 32 := by decide
  rw [hmask, ← Nat.shiftRight_eq_div_pow]
  apply Nat.eq_of_testBit_eq
  intro i
  rw [Nat.testBit_and, Nat.testBit_shiftLeft, Nat.testBit_mul_pow_two,
    Nat.testBit_shiftRight, Nat.testBit_two_pow_sub_one]
  by_cases h32 : 32 ≤ i
  · by_cases h64 : i < 64
    · have h1 : i - 32 < 32 := by omega
      have h2 : 32 + (i - 32) = i := by omega
      simp [h32, h1, h2]
    · have h1 : ¬ (i - 32 < 32) := by omega
      have h2 : 32 + (i - 32) = i := by omega
      have h3 : a.testBit i = false :=
        Nat.testBit_lt_two_pow (lt_of_lt_of_le ha (Nat.pow_le_pow_right (by norm_num) (by omega)))
      simp [h1, h2, h3]
  · simp [h32]

/-- The widening expression of the source is the high half of now64 glued
to the 32-bit capture. -/
theorem widen_timestamp_eq (now64 ts32 : Nat) (h64 : now64 < 2 ^ 64) (h32 : ts32 < 2 ^ 32) :
    widen_timestamp now64 ts32 = 2 ^ 32 * (now64 / 2 ^ 32) + ts32 := by
  rw [widen_timestamp, and_high_mask now64 h64, Nat.mul_add_lt_is_or h32]

/-- One next_channel step on an in-range canonical selector increments the
state modulo the sequence length. -/
theorem ChannelHopping.next_channel_state (h : ChannelHopping)
    (hs : h.state < ChannelHopping.CHANNEL_HOPPING_SEQUENCE.length) :
    (h.next_channel).state = (h.state + 1) % ChannelHopping.CHANNEL_HOPPING_SEQUENCE.length := by
  have hlen : ChannelHopping.CHANNEL_HOPPING_SEQUENCE.length = 167 := by decide
  simp only [ChannelHopping.next_channel, hlen] at *
  omega

/-- Iterating next_channel k times from an in-range state adds k modulo the
sequence length. -/
theorem ChannelHopping.iterate_next_channel_state (k : Nat) :
    ∀ h : ChannelHopping, h.state < ChannelHopping.CHANNEL_HOPPING_SEQUENCE.length →
      ((ChannelHopping.next_channel)^[k] h).state =
        (h.state + k) % ChannelHopping.CHANNEL_HOPPING_SEQUENCE.length := by
  have hlen : ChannelHopping.CHANNEL_HOPPING_SEQUENCE.length = 167 := by decide
  induction k with
  | zero =>
    intro h hs
    rw [hlen] at *
    simp only [Function.iterate_zero, id]
    omega
  | succ n ih =>
    intro h hs
    rw [Function.iterate_succ_apply]
    have hstep := ChannelHopping.next_channel_state h hs
    have hlt : (h.next_channel).state < ChannelHopping.CHANNEL_HOPPING_SEQUENCE.length := by
      rw [hstep, hlen]
      rw [hlen] at hs
      omega
    rw [ih h.next_channel hlt, hstep]
    rw [hlen]
    omega

/-! Claim theorems. -/

/-- C8: for every 64-bit monotonic reading now64 and every 32-bit capture
ts32 with ts32 ≤ (now64 & 0xFFFF_FFFF), the widened timestamp
ts64 = (now64 & 0xFFFF_FFFF_0000_0000) | ts32 satisfies now64 - ts64 < 2^32. -/
theorem widen_timestamp_in_window (now64 ts32 : Nat) (h64 : now64 < 2 ^ 64)
    (hle : ts32 ≤ now64 % 2 ^ 32) :
    now64 - widen_timestamp now64 ts32 < 2 ^ 32 := by
  have h32 : ts32 < 2 ^ 32 := lt_of_le_of_lt hle (Nat.mod_lt _ (by norm_num))
  rw [widen_timestamp_eq now64 ts32 h64 h32]
  omega

/-- C8 witness: now64 = 5000000000, ts32 = 1000. -/
theorem widen_timestamp_in_window_witness :
    5000000000 - widen_timestamp 5000000000 1000 < 2 ^ 32 :=
  widen_timestamp_in_window 5000000000 1000 (by decide) (by decide)

/-- C3: the widening the source actually performs at now64 = 2^32 (a
monotonic read just after a 32-bit wrap) and ts32 = 2^32 - 1 (a capture
just before it) keeps the high half undecremented and so produces
0x1_FFFF_FFFF, a timestamp strictly in the future of now64; the high half
is never decremented. -/
theorem widen_timestamp_wrap_no_decrement :
    widen_timestamp 4294967296 4294967295 = 8589934591 ∧
    4294967296 < widen_timestamp 4294967296 4294967295 ∧
    widen_timestamp 4294967296 4294967295 ≠ 4294967295 := by decide

/-- C2: the canonical L = 167 sequence violates the anti-adjacency
requirement at index 14: SEQ[14] = 80 and SEQ[15] = 81 differ by exactly
one channel number. -/
theorem hop_sequence_adjacent_violation :
    ChannelHopping.CHANNEL_HOPPING_SEQUENCE.length = 167 ∧
    ChannelHopping.CHANNEL_HOPPING_SEQUENCE[14]? = some 80 ∧
    ChannelHopping.CHANNEL_HOPPING_SEQUENCE[(14 + 1) % 167]? = some 81 ∧
    ((80 : Int) - 81).natAbs ≤ 1 := by decide

/-- C9 counterexample: the first entry of the L = 100 dongle_tasks sequence
is 84, not 47, so after 100 next_channel() calls from state 0 the current
channel is SEQ[0] = 84 and in particular not 47. -/
theorem dongle_tasks_seq_head_counterexample :
    DongleTasks.ChannelHopping.CHANNEL_HOPPING_SEQUENCE[0]? = some 84 ∧
    ¬ (DongleTasks.ChannelHopping.current_channel
        ((DongleTasks.ChannelHopping.next_channel)^[100] DongleTasks.ChannelHopping.new) =
          some 47) := by decide

/-- C9 amended: with the L = 100 sequence of src/dongle/src/bin/dongle_tasks.rs,
after 100 next_channel() calls starting at state 0, is_initial_state() is
true and current_channel() equals SEQ[0], which is 84. -/
theorem dongle_tasks_hop_cycle :
    DongleTasks.ChannelHopping.is_initial_state
      ((DongleTasks.ChannelHopping.next_channel)^[100] DongleTasks.ChannelHopping.new) = true ∧
    DongleTasks.ChannelHopping.current_channel
      ((DongleTasks.ChannelHopping.next_channel)^[100] DongleTasks.ChannelHopping.new) =
        some 84 ∧
    DongleTasks.ChannelHopping.CHANNEL_HOPPING_SEQUENCE[0]? = some 84 := by decide

/-- C6: every operation of the canonical selector preserves 0 ≤ state < L,
current_channel() reads SEQ[state], and L next_channel() calls from any
in-range state return to the original state. -/
theorem channel_hopping_selector_invariants (h : ChannelHopping)
    (hs : h.state < ChannelHopping.CHANNEL_HOPPING_SEQUENCE.length) :
    ChannelHopping.new.state < ChannelHopping.CHANNEL_HOPPING_SEQUENCE.length ∧
    (h.reset).state < ChannelHopping.CHANNEL_HOPPING_SEQUENCE.length ∧
    (h.next_channel).state < ChannelHopping.CHANNEL_HOPPING_SEQUENCE.length ∧
    h.current_channel = some (ChannelHopping.CHANNEL_HOPPING_SEQUENCE.getD h.state 0) ∧
    (ChannelHopping.next_channel)^[ChannelHopping.CHANNEL_HOPPING_SEQUENCE.length] h = h := by
  have hlen : ChannelHopping.CHANNEL_HOPPING_SEQUENCE.length = 167 := by decide
  refine ⟨by decide, ?_, ?_, ?_, ?_⟩
  · show (0 : Nat) < _
    rw [hlen]
    omega
  · show _ % _ < _
    exact Nat.mod_lt _ (by rw [hlen]; omega)
  · rw [ChannelHopping.current_channel, List.getElem?_eq_getElem hs,
      List.getD_eq_getElem _ _ hs]
  · have hst := ChannelHopping.iterate_next_channel_state
      ChannelHopping.CHANNEL_HOPPING_SEQUENCE.length h hs
    have hfix : ((ChannelHopping.next_channel)^[ChannelHopping.CHANNEL_HOPPING_SEQUENCE.length]
        h).state = h.state := by
      rw [hst, hlen]
      rw [hlen] at hs
      omega
    exact congrArg ChannelHopping.mk hfix

/-- C6 witness: the conjunction instantiated at state 5. -/
theorem channel_hopping_selector_invariants_witness :
    ChannelHopping.new.state < ChannelHopping.CHANNEL_HOPPING_SEQUENCE.length ∧
    ((⟨5⟩ : ChannelHopping).reset).state < ChannelHopping.CHANNEL_HOPPING_SEQUENCE.length ∧
    ((⟨5⟩ : ChannelHopping).next_channel).state <
      ChannelHopping.CHANNEL_HOPPING_SEQUENCE.length ∧
    (⟨5⟩ : ChannelHopping).current_channel =
      some (ChannelHopping.CHANNEL_HOPPING_SEQUENCE.getD 5 0) ∧
    (ChannelHopping.next_channel)^[ChannelHopping.CHANNEL_HOPPING_SEQUENCE.length]
      (⟨5⟩ : ChannelHopping) = ⟨5⟩ :=
  channel_hopping_selector_invariants ⟨5⟩ (by decide)

/-- C7: copying any slice of at most 125 bytes into a fresh Packet succeeds
and round-trips through payload() and len(); for the sync sentinel the PHR
byte is 12. -/
theorem packet_copy_roundtrip (s : List Nat) (hs : s.length ≤ 125) :
    (Packet.new.copy_from_slice s).isSome = true ∧
    ((Packet.new.copy_from_slice s).getD Packet.new).payload = s ∧
    ((Packet.new.copy_from_slice s).getD Packet.new).len = s.length ∧
    ((Packet.new.copy_from_slice [0, 1, 2, 3, 4, 5, 6, 7, 8, 9]).getD
      Packet.new).buffer.getD 0 0 = 12 := by
  have hb : Packet.new.buffer = 2 :: List.replicate 127 0 := by decide
  have hT : Packet.new.buffer.take 1 = [2] := by rw [hb]; rfl
  have hD : Packet.new.buffer.drop (1 + s.length) = (List.replicate 127 0).drop s.length := by
    rw [hb, Nat.add_comm, List.drop_succ_cons]
  have hcopy : Packet.new.copy_from_slice s =
      some ⟨(s.length + 2) :: (s ++ (List.replicate 127 0).drop s.length)⟩ := by
    rw [Packet.copy_from_slice, if_pos (show s.length ≤ Packet.CAPACITY from hs), hT, hD,
      Packet.set_len, if_pos (show s.length ≤ Packet.CAPACITY from hs)]
    rfl
  refine ⟨?_, ?_, ?_, by decide⟩
  · rw [hcopy]
    rfl
  · rw [hcopy]
    show Packet.payload ⟨(s.length + 2) :: (s ++ (List.replicate 127 0).drop s.length)⟩ = s
    rw [Packet.payload, Packet.len]
    show (((s.length + 2) :: (s ++ (List.replicate 127 0).drop s.length)).drop 1).take
      (((s.length + 2) :: (s ++ (List.replicate 127 0).drop s.length)).getD 0 0 - 2) = s
    rw [List.getD_cons_zero, List.drop_one, List.tail_cons,
      show s.length + 2 - 2 = s.length from by omega, List.take_left]
  · rw [hcopy]
    show Packet.len ⟨(s.length + 2) :: (s ++ (List.replicate 127 0).drop s.length)⟩ = s.length
    rw [Packet.len]
    show ((s.length + 2) :: (s ++ (List.replicate 127 0).drop s.length)).getD 0 0 - 2 = s.length
    rw [List.getD_cons_zero]
    omega

/-- C7 witness: round-trip at the sync sentinel. -/
theorem packet_copy_roundtrip_witness :
    (Packet.new.copy_from_slice [0, 1, 2, 3, 4, 5, 6, 7, 8, 9]).isSome = true ∧
    ((Packet.new.copy_from_slice [0, 1, 2, 3, 4, 5, 6, 7, 8, 9]).getD Packet.new).payload =
      [0, 1, 2, 3, 4, 5, 6, 7, 8, 9] ∧
    ((Packet.new.copy_from_slice [0, 1, 2, 3, 4, 5, 6, 7, 8, 9]).getD Packet.new).len = 10 ∧
    ((Packet.new.copy_from_slice [0, 1, 2, 3, 4, 5, 6, 7, 8, 9]).getD
      Packet.new).buffer.getD 0 0 = 12 :=
  packet_copy_roundtrip [0, 1, 2, 3, 4, 5, 6, 7, 8, 9] (by decide)

/-- C1 counterexample: from a concrete dongle frame state with both
counters zero, a receive that ends in a CRC error (the Err(0x1234) of the
spec scenario) leaves missed_rxes at 0; the slot is not accounted as a
miss. -/
theorem dongle_crc_error_not_missed_counterexample :
    (dongle_slot_body ⟨0, 0, ChannelHopping.new, 200000, Packet.new⟩
        (SlotOutcome.crcError 4660 [])).missed_rxes = 0 ∧
    ¬ ((dongle_slot_body ⟨0, 0, ChannelHopping.new, 200000, Packet.new⟩
        (SlotOutcome.crcError 4660 [])).missed_rxes = 0 + 1) := by decide

/-- C1 amended: on a timeout the dongle increments missed_rxes before
advancing to the next slot; on a CRC error it increments neither counter;
in both cases the selector advances and the slot deadline moves one
SLOT_SIZE. -/
theorem dongle_slot_accounting (s : DongleFrameState) (crc : Nat) (data : List Nat) :
    (dongle_slot_body s SlotOutcome.timeout).missed_rxes = s.missed_rxes + 1 ∧
    (dongle_slot_body s SlotOutcome.timeout).correct_rxes = s.correct_rxes ∧
    (dongle_slot_body s (SlotOutcome.crcError crc data)).missed_rxes = s.missed_rxes ∧
    (dongle_slot_body s (SlotOutcome.crcError crc data)).correct_rxes = s.correct_rxes ∧
    (dongle_slot_body s SlotOutcome.timeout).channel_hopping = s.channel_hopping.next_channel ∧
    (dongle_slot_body s (SlotOutcome.crcError crc data)).channel_hopping =
      s.channel_hopping.next_channel ∧
    (dongle_slot_body s SlotOutcome.timeout).slot_start_time = s.slot_start_time + SLOT_SIZE ∧
    (dongle_slot_body s (SlotOutcome.crcError crc data)).slot_start_time =
      s.slot_start_time + SLOT_SIZE :=
  ⟨rfl, rfl, rfl, rfl, rfl, rfl, rfl, rfl⟩

/-- C4: in LookingForSync, a successful receive of the sync sentinel with
the selector in its (reset) initial state transitions the half to
Synchronized with sync_time = high half of now64 glued to ts32; the right
half advances the selector once with next_slot_time = sync_time +
SLOT_SIZE, the left half advances it twice with next_slot_time =
sync_time + 2 * SLOT_SIZE. -/
theorem keyboard_sync_transition (hop : ChannelHopping) (now64 ts32 : Nat) (rssi : Int)
    (p : Packet) (h64 : now64 < 2 ^ 64) (h32 : ts32 < 2 ^ 32)
    (hp : p.payload = [0, 1, 2, 3, 4, 5, 6, 7, 8, 9]) :
    keyboard_looking_for_sync_step true hop now64 (Except.ok (ts32, rssi)) p =
      (KeyboardRadioState.Synchronized (2 ^ 32 * (now64 / 2 ^ 32) + ts32)
        (2 ^ 32 * (now64 / 2 ^ 32) + ts32 + SLOT_SIZE), (hop.reset).next_channel) ∧
    keyboard_looking_for_sync_step false hop now64 (Except.ok (ts32, rssi)) p =
      (KeyboardRadioState.Synchronized (2 ^ 32 * (now64 / 2 ^ 32) + ts32)
        (2 ^ 32 * (now64 / 2 ^ 32) + ts32 + 2 * SLOT_SIZE),
        ((hop.reset).next_channel).next_channel) := by
  have hw := widen_timestamp_eq now64 ts32 h64 h32
  constructor <;>
    simp [keyboard_looking_for_sync_step, ChannelHopping.reset,
      ChannelHopping.is_initial_state, hp, hw]

/-- C4 witness: a right-half acquisition at now64 = 5000000000 and capture
ts32 = 500000 with the sentinel in the packet. -/
theorem keyboard_sync_transition_witness :
    keyboard_looking_for_sync_step true ChannelHopping.new 5000000000
        (Except.ok (500000, -40))
        ((Packet.new.copy_from_slice [0, 1, 2, 3, 4, 5, 6, 7, 8, 9]).getD Packet.new) =
      (KeyboardRadioState.Synchronized (2 ^ 32 * (5000000000 / 2 ^ 32) + 500000)
        (2 ^ 32 * (5000000000 / 2 ^ 32) + 500000 + SLOT_SIZE),
        (ChannelHopping.new.reset).next_channel) :=
  (keyboard_sync_transition ChannelHopping.new 5000000000 500000 (-40)
    ((Packet.new.copy_from_slice [0, 1, 2, 3, 4, 5, 6, 7, 8, 9]).getD Packet.new)
    (by decide) (by decide) (by decide)).1

/-- C5: recv reports Ok((timestamp, rssi)) exactly when CRCSTATUS said the
hardware CRC passed, Err(rxcrc) when it failed, and in both cases the
packet buffer holds the DMA-written received data. -/
theorem recv_crc_result (r : Radio) (p : Packet) (c : RxCompletion) :
    (c.crcOk = true →
      (Radio.recv r p c).2.2 =
        Except.ok (c.timestamp % 2 ^ 32, -((c.rssiSample % 128 : Nat) : Int))) ∧
    (c.crcOk = false → (Radio.recv r p c).2.2 = Except.error (c.rxcrc % 2 ^ 16)) ∧
    (Radio.recv r p c).2.1 = p.dma_write c.data := by
  refine ⟨fun hc => ?_, fun hc => ?_, ?_⟩
  · simp [Radio.recv, hc]
  · simp [Radio.recv, hc]
  · cases hc : c.crcOk <;> simp [Radio.recv, hc]

/-- C5 witness: one CRC-passing and one CRC-failing completion. -/
theorem recv_crc_result_witness :
    (Radio.recv ⟨false, RadioState.Disabled, 5⟩ Packet.new
        ⟨[12, 0, 1], 777, 40, true, 4660⟩).2.2 =
      Except.ok (777 % 2 ^ 32, -((40 % 128 : Nat) : Int)) ∧
    (Radio.recv ⟨false, RadioState.Disabled, 5⟩ Packet.new
        ⟨[12, 0, 1], 777, 40, false, 4660⟩).2.2 =
      Except.error (4660 % 2 ^ 16) :=
  ⟨(recv_crc_result ⟨false, RadioState.Disabled, 5⟩ Packet.new
      ⟨[12, 0, 1], 777, 40, true, 4660⟩).1 rfl,
   (recv_crc_result ⟨false, RadioState.Disabled, 5⟩ Packet.new
      ⟨[12, 0, 1], 777, 40, false, 4660⟩).2.1 rfl⟩

/-- C10: send and send_no_cca return the packet they were given with its
buffer byte-for-byte unchanged; only the radio register state moves. -/
theorem send_preserves_packet (r : Radio) (p : Packet) (ts : Nat) :
    (Radio.send r p ts).2.1 = p ∧ (Radio.send_no_cca r p ts).2.1 = p :=
  ⟨rfl, rfl⟩

end Crkbd
